import Mathlib

/-
Verification of the gravitational physics core of the Universe repository
(src/physics_engine.py) against its design document.

Shallow embedding conventions:
  * python floats are modelled as real numbers (exact arithmetic);
  * numpy 3-vectors are triples of reals with componentwise operations;
  * a python dict of bodies is an insertion-ordered association list
    (CPython dicts preserve insertion order; deletion keeps the order of
    the remaining entries);
  * in-place mutation of bodies becomes functional record update;
  * CPython raises RuntimeError when a dict changes size while an
    iterator over it is advanced; this is modelled with Except.
-/

noncomputable section

/-- A numpy 3-vector. -/
abbrev Vec3 : Type := ℝ × ℝ × ℝ

/-- Componentwise division of a vector by a scalar (numpy vec / scalar). -/
def sdiv (v : Vec3) (c : ℝ) : Vec3 :=
  (v.1 / c, v.2.1 / c, v.2.2 / c)

/-- Euclidean norm of a 3-vector (np.linalg.norm). -/
def norm3 (v : Vec3) : ℝ :=
  Real.sqrt (v.1 * v.1 + v.2.1 * v.2.1 + v.2.2 * v.2.2)

/-- The state of one celestial object, from CelestialBody in
src/physics_engine.py.  The pure-rendering handles (display_list,
label_texture) are omitted; every field the physics reads or writes is
present. -/
@[ext]
structure CelestialBody where
  name : String
  type : String
  mass : ℝ
  radius : ℝ
  position : Vec3
  velocity : Vec3
  color : Vec3
  trail : List Vec3
  max_trail_length : Nat
  orbit_calculated : Bool
  semi_major_axis : ℝ
  eccentricity : ℝ
  period : ℝ
  force : Vec3
  acceleration : Vec3

/-- CelestialBody construction: the python initializer stores every argument
verbatim and initializes the bookkeeping fields; it performs no validation
of mass or radius and has no error path. -/
def mkCelestialBody (name : String) (body_type : String) (mass : ℝ)
    (radius : ℝ) (position : Vec3) (velocity : Vec3) (color : Vec3) :
    CelestialBody :=
  { name := name
    type := body_type
    mass := mass
    radius := radius
    position := position
    velocity := velocity
    color := color
    trail := []
    max_trail_length := 1000
    orbit_calculated := false
    semi_major_axis := 0
    eccentricity := 0
    period := 0
    force := (0, 0, 0)
    acceleration := (0, 0, 0) }

/-- CelestialBody.update_position: advance the position by velocity * dt,
append the new position to the trail, and evict the oldest entry once the
cap is exceeded. -/
def CelestialBody.update_position (b : CelestialBody) (dt : ℝ) :
    CelestialBody :=
  let p := b.position + dt • b.velocity
  let t0 := b.trail ++ [p]
  let t := if b.max_trail_length < t0.length then t0.tail else t0
  { b with position := p, trail := t }

/-- CelestialBody.update_velocity: advance the velocity by acceleration * dt. -/
def CelestialBody.update_velocity (b : CelestialBody) (dt : ℝ) :
    CelestialBody :=
  { b with velocity := b.velocity + dt • b.acceleration }

/-- CelestialBody.is_collision_with: center distance strictly below the sum
of the radii. -/
def CelestialBody.is_collision_with (b other : CelestialBody) : Prop :=
  norm3 (b.position - other.position) < b.radius + other.radius

/-- CelestialBody.merge_with, line by line from the source.  The velocity is
computed from the pre-merge masses; the mass is then overwritten with the
total; the position line afterwards reads self.mass, which at that point
already holds the total mass. -/
def CelestialBody.merge_with (b other : CelestialBody) : CelestialBody :=
  let total_mass := b.mass + other.mass
  let velocity1 := sdiv (b.mass • b.velocity + other.mass • other.velocity) total_mass
  let mass1 := total_mass
  let total_volume := (4 / 3 : ℝ) * Real.pi * (b.radius ^ 3 + other.radius ^ 3)
  let radius1 := (total_volume * 3 / (4 * Real.pi)) ^ ((1 : ℝ) / 3)
  let position1 := sdiv (mass1 • b.position + other.mass • other.position) total_mass
  { b with velocity := velocity1, mass := mass1, radius := radius1,
           position := position1 }

/-- An insertion-ordered python dict of bodies, keyed by strings. -/
abbrev BodyDict : Type := List (String × CelestialBody)

/-- Lookup in a body dict (python bodies[key], as a total query). -/
def dictGet (d : BodyDict) (k : String) : Option CelestialBody :=
  match d with
  | [] => none
  | kv :: tl => if kv.1 = k then some kv.2 else dictGet tl k

/-- A python for-loop over bodies.items() that rewrites each body in place
(keys untouched): every body is replaced by f applied to its key and
itself. -/
def mapEntries (f : String → CelestialBody → CelestialBody) (d : BodyDict) :
    BodyDict :=
  d.map fun kv => (kv.1, f kv.1 kv.2)

/-- The gravity engine configuration from GravityEngine in the source:
the gravitational constant and the integration-scheme flag. -/
structure GravityEngine where
  G : ℝ
  use_rk4 : Bool

/-- GravityEngine construction: G = 6.67430e-11 and use_rk4 = true. -/
def mkGravityEngine : GravityEngine :=
  { G := 66743 / 10 ^ 15, use_rk4 := true }

/-- Pointwise update of a force table (python forces[key] = v). -/
def updF (f : String → Vec3) (k : String) (v : Vec3) : String → Vec3 :=
  fun k2 => if k2 = k then v else f k2

/-- The inner-loop body of calculate_gravitational_forces for one ordered
pair (e1 before e2 in iteration order): skip the pair when the distance is
zero, otherwise add direction * magnitude to the first key's accumulator
and then subtract the same vector from the second key's accumulator. -/
def applyPair (G : ℝ) (f : String → Vec3) (e1 e2 : String × CelestialBody) :
    String → Vec3 :=
  let r_vec := e2.2.position - e1.2.position
  let r := norm3 r_vec
  if r = 0 then f
  else
    let force_magnitude := G * e1.2.mass * e2.2.mass / (r * r)
    let force_direction := sdiv r_vec r
    let f1 := updF f e1.1 (f e1.1 + force_magnitude • force_direction)
    updF f1 e2.1 (f1 e2.1 - force_magnitude • force_direction)

/-- All ordered pairs (i, j) with i before j, in the order the nested
index loops of the source visit them. -/
def allPairs : List (String × CelestialBody) →
    List ((String × CelestialBody) × (String × CelestialBody))
  | [] => []
  | x :: xs => (xs.map fun y => (x, y)) ++ allPairs xs

/-- GravityEngine.calculate_gravitational_forces: fold the pair update over
every i-before-j pair, starting from the all-zero force table. -/
def calculate_gravitational_forces (G : ℝ) (bodies : BodyDict) :
    String → Vec3 :=
  (allPairs bodies).foldl (fun f p => applyPair G f p.1 p.2) (fun _ => (0, 0, 0))

/-- The per-body effect of GravityEngine.update_accelerations: a body of
positive mass gets acceleration force / mass; a body of non-positive mass
is left as is. -/
def accelStep (forces : String → Vec3) (k : String) (b : CelestialBody) :
    CelestialBody :=
  if 0 < b.mass then { b with acceleration := sdiv (forces k) b.mass } else b

/-- GravityEngine.update_accelerations: apply accelStep to every body. -/
def update_accelerations (bodies : BodyDict) (forces : String → Vec3) :
    BodyDict :=
  mapEntries (accelStep forces) bodies

/-- GravityEngine.euler_integration: compute forces, update accelerations,
then for every body update the velocity first and the position second (the
position update reads the already-updated velocity). -/
def euler_integration (e : GravityEngine) (bodies : BodyDict) (dt : ℝ) :
    BodyDict :=
  let forces := calculate_gravitational_forces e.G bodies
  let bodies1 := update_accelerations bodies forces
  mapEntries (fun _ b => (b.update_velocity dt).update_position dt) bodies1

/-- GravityEngine._rk4_step: the derivative of the state held in the body
dict.  The position derivative of each body is its current velocity; the
velocity derivative is force / mass for positive mass and the zero vector
otherwise.  (The dt and t parameters of the python function are unused
there and omitted here.) -/
def rk4_step (G : ℝ) (bodies : BodyDict) :
    (String → Vec3) × (String → Vec3) :=
  let forces := calculate_gravitational_forces G bodies
  (fun k => match dictGet bodies k with
            | some b => b.velocity
            | none => (0, 0, 0),
   fun k => match dictGet bodies k with
            | some b => if 0 < b.mass then sdiv (forces k) b.mass else (0, 0, 0)
            | none => (0, 0, 0))

/-- One stage-restore loop of GravityEngine.rk4_integration: every body is
reset to its snapshot position/velocity advanced by h times the stage
derivative (h is 0.5*dt for stages 2 and 3 and dt for stage 4).  The loop
runs over the live dict, but it overwrites position and velocity from the
snapshot and touches nothing else, so mapping the snapshot is the same
state. -/
def rk4Stage (init : BodyDict) (kp kv : String → Vec3) (h : ℝ) : BodyDict :=
  mapEntries (fun k b =>
    { b with
      position := b.position + h • kp k,
      velocity := b.velocity + h • kv k }) init

/-- The final-update loop of GravityEngine.rk4_integration:
state = snapshot + (k1 + 2*k2 + 2*k3 + k4) * dt / 6, for position and
velocity alike. -/
def rk4Final (init : BodyDict)
    (k1 k2 k3 k4 : (String → Vec3) × (String → Vec3)) (dt : ℝ) : BodyDict :=
  mapEntries (fun k b =>
    { b with
      position := b.position + (dt / 6) •
        (k1.1 k + (2 : ℝ) • k2.1 k + (2 : ℝ) • k3.1 k + k4.1 k),
      velocity := b.velocity + (dt / 6) •
        (k1.2 k + (2 : ℝ) • k2.2 k + (2 : ℝ) • k3.2 k + k4.2 k) }) init

/-- GravityEngine.rk4_integration: snapshot the initial state, evaluate the
four derivative stages, restoring every body from the snapshot before each
new stage, and write the weighted final state. -/
def rk4_integration (e : GravityEngine) (bodies : BodyDict) (dt : ℝ) :
    BodyDict :=
  let s1 := rk4_step e.G bodies
  let bodies1 := rk4Stage bodies s1.1 s1.2 (0.5 * dt)
  let s2 := rk4_step e.G bodies1
  let bodies2 := rk4Stage bodies s2.1 s2.2 (0.5 * dt)
  let s3 := rk4_step e.G bodies2
  let bodies3 := rk4Stage bodies s3.1 s3.2 dt
  let s4 := rk4_step e.G bodies3
  rk4Final bodies s1 s2 s3 s4 dt

/-- The message CPython attaches to the RuntimeError raised when a dict
changes size under a live iterator. -/
def dictChangedMsg : String := "dictionary changed size during iteration"

open Classical in
/-- The inner loop of GravityEngine.handle_collisions for a fixed outer
body b1: scan the entries after it in the current dict and return the
first one whose body collides with b1. -/
def innerScan (b1 : CelestialBody) :
    List (String × CelestialBody) → Option (String × CelestialBody)
  | [] => none
  | kv :: tl =>
    if b1.is_collision_with kv.2 then some kv else innerScan b1 tl

/-- The merge-and-delete effect of one detected collision: the entry of k1
is replaced by the merge of its body with b2, and the entry of k2 is
removed; the order of the remaining entries is preserved, as python dict
deletion does. -/
def mergeDelete (d : BodyDict) (k1 : String) (b2 : CelestialBody)
    (k2 : String) : BodyDict :=
  (d.map fun kv => if kv.1 = k1 then (k1, kv.2.merge_with b2) else kv).filter
    fun kv => decide (kv.1 ≠ k2)

/-- The outer loop of GravityEngine.handle_collisions with CPython dict
iterator semantics: each advance of the outer iterator first checks that
the dict still has the size it had when the iterator was created and
raises RuntimeError otherwise; the fuel argument (at least size0 + 1 at
the first call) only bounds the recursion and is never exhausted on a
reachable state. -/
def handleCollisionsAux (size0 : ℕ) :
    ℕ → ℕ → BodyDict → Except String BodyDict
  | 0, _, d => Except.ok d
  | fuel + 1, i, d =>
    if d.length ≠ size0 then Except.error dictChangedMsg
    else
      match d.get? i with
      | none => Except.ok d
      | some (k1, b1) =>
        match innerScan b1 (d.drop (i + 1)) with
        | none => handleCollisionsAux size0 fuel (i + 1) d
        | some (k2, b2) =>
          handleCollisionsAux size0 fuel (i + 1) (mergeDelete d k1 b2 k2)

/-- GravityEngine.handle_collisions: resolve collisions by merging, with
the deletion-under-iteration behavior of the source preserved. -/
def handle_collisions (d : BodyDict) : Except String BodyDict :=
  handleCollisionsAux d.length (d.length + 1) 0 d

/-- GravityEngine.update_positions (the per-tick step): integrate with the
configured scheme, then resolve collisions. -/
def update_positions (e : GravityEngine) (bodies : BodyDict) (dt : ℝ) :
    Except String BodyDict :=
  let bodies1 :=
    if e.use_rk4 then rk4_integration e bodies dt
    else euler_integration e bodies dt
  handle_collisions bodies1

/-- Total mass of a body dict (the sum in find_center_of_mass). -/
def totalMass (bodies : BodyDict) : ℝ :=
  (bodies.map fun kv => kv.2.mass).sum

/-- GravityEngine.find_center_of_mass: zero vector for total mass zero,
otherwise the mass-weighted position sum divided by the total mass. -/
def find_center_of_mass (bodies : BodyDict) : Vec3 :=
  if totalMass bodies = 0 then (0, 0, 0)
  else sdiv (bodies.map fun kv => kv.2.mass • kv.2.position).sum (totalMass bodies)

/-- GravityEngine.find_center_of_mass_velocity: zero vector for total mass
zero, otherwise the mass-weighted velocity sum divided by the total mass. -/
def find_center_of_mass_velocity (bodies : BodyDict) : Vec3 :=
  if totalMass bodies = 0 then (0, 0, 0)
  else sdiv (bodies.map fun kv => kv.2.mass • kv.2.velocity).sum (totalMass bodies)

/-- The first loop of GravityEngine.apply_correction: subtract a vector
from every body's position. -/
def shiftPositions (bodies : BodyDict) (c : Vec3) : BodyDict :=
  mapEntries (fun _ b => { b with position := b.position - c }) bodies

/-- The second loop of GravityEngine.apply_correction: subtract a vector
from every body's velocity. -/
def shiftVelocities (bodies : BodyDict) (c : Vec3) : BodyDict :=
  mapEntries (fun _ b => { b with velocity := b.velocity - c }) bodies

/-- GravityEngine.apply_correction: subtract the center of mass from every
position, then subtract the center-of-mass velocity (computed on the
position-shifted dict, as the source does) from every velocity. -/
def apply_correction (bodies : BodyDict) : BodyDict :=
  let com := find_center_of_mass bodies
  let bodies1 := shiftPositions bodies com
  let com_velocity := find_center_of_mass_velocity bodies1
  shiftVelocities bodies1 com_velocity

/-- Spec-side derivative for the RK4 refinement statement, following the
spec's words: d(position)/dt is the velocity of the stage state and
d(velocity)/dt is the acceleration force(position)/mass of the stage
state. -/
def specDeriv (G : ℝ) (d : BodyDict) : (String → Vec3) × (String → Vec3) :=
  (fun k => match dictGet d k with
            | some b => b.velocity
            | none => (0, 0, 0),
   fun k => match dictGet d k with
            | some b => sdiv (calculate_gravitational_forces G d k) b.mass
            | none => (0, 0, 0))

/-- Spec-side stage state: the snapshot of the initial state advanced by h
times a derivative, never accumulating stage perturbations. -/
def specAdvance (init : BodyDict)
    (kd : (String → Vec3) × (String → Vec3)) (h : ℝ) : BodyDict :=
  mapEntries (fun k b =>
    { b with
      position := b.position + h • kd.1 k,
      velocity := b.velocity + h • kd.2 k }) init

/-- Spec-side RK4 result, following the spec's words: k1 at the initial
state; stage 2 state = snapshot advanced by 0.5*dt*k1; stage 3 state =
snapshot advanced by 0.5*dt*k2; stage 4 state = snapshot advanced by
dt*k3; final state = snapshot + dt/6 * (k1 + 2*k2 + 2*k3 + k4) for
position and velocity alike. -/
def rk4SpecResult (e : GravityEngine) (d : BodyDict) (dt : ℝ) : BodyDict :=
  let k1 := specDeriv e.G d
  let s2 := specAdvance d k1 (0.5 * dt)
  let k2 := specDeriv e.G s2
  let s3 := specAdvance d k2 (0.5 * dt)
  let k3 := specDeriv e.G s3
  let s4 := specAdvance d k3 dt
  let k4 := specDeriv e.G s4
  mapEntries (fun k b =>
    { b with
      position := b.position + (dt / 6) •
        (k1.1 k + (2 : ℝ) • k2.1 k + (2 : ℝ) • k3.1 k + k4.1 k),
      velocity := b.velocity + (dt / 6) •
        (k1.2 k + (2 : ℝ) • k2.2 k + (2 : ℝ) • k3.2 k + k4.2 k) }) d

/-- Spec-side merge position, following the spec's words: the mass-weighted
centroid of the two pre-merge positions. -/
def massWeightedCentroid (m1 : ℝ) (p1 : Vec3) (m2 : ℝ) (p2 : Vec3) : Vec3 :=
  sdiv (m1 • p1 + m2 • p2) (m1 + m2)

/-- Demo key for the first body of the concrete examples. -/
def keyA : String := "a"

/-- Demo key for the second body of the concrete examples. -/
def keyB : String := "b"

/-- Demo body kind string. -/
def kindStar : String := "star"

/-- Demo body name string. -/
def nameA : String := "A"

/-- Demo body name string. -/
def nameB : String := "B"

/-- A body of mass 1 and radius 1 at the origin, at rest. -/
def bodyOrigin1 : CelestialBody :=
  mkCelestialBody nameA kindStar 1 1 (0, 0, 0) (0, 0, 0) (1, 0, 0)

/-- A second body of mass 1 and radius 1 at the origin, at rest: it
coincides with bodyOrigin1, so the pair counts as a collision. -/
def bodyOrigin2 : CelestialBody :=
  mkCelestialBody nameB kindStar 1 1 (0, 0, 0) (0, 0, 0) (0, 1, 0)

/-- A body of mass 1 and radius 2 at position (1, 0, 0). -/
def bodyMergeA : CelestialBody :=
  mkCelestialBody nameA kindStar 1 2 (1, 0, 0) (0, 0, 0) (1, 0, 0)

/-- A body of mass 1 and radius 2 at position (3, 0, 0): it overlaps
bodyMergeA (distance 2 below radius sum 4). -/
def bodyMergeB : CelestialBody :=
  mkCelestialBody nameB kindStar 1 2 (3, 0, 0) (0, 0, 0) (0, 1, 0)

/-- A two-entry dict of the two coinciding unit bodies. -/
def dictCoincide : BodyDict := [(keyA, bodyOrigin1), (keyB, bodyOrigin2)]

/-- A two-entry dict of the two overlapping bodies on the x-axis. -/
def dictMerge : BodyDict := [(keyA, bodyMergeA), (keyB, bodyMergeB)]

/-- A one-entry dict holding a single unit body. -/
def dictSolo : BodyDict := [(keyA, bodyOrigin1)]

/-- A two-entry dict used for the force computations: unit masses at the
origin and at (1, 0, 0). -/
def dictForce : BodyDict := [(keyA, bodyOrigin1), (keyB, bodyMergeA)]

/-- The F * direction vector a non-degenerate pair contributes in the force
loop: magnitude G * m1 * m2 / r^2 times the unit vector from body 1 toward
body 2. -/
def pairForceVec (G : ℝ) (b1 b2 : CelestialBody) : Vec3 :=
  let r_vec := b2.position - b1.position
  let r := norm3 r_vec
  (G * b1.mass * b2.mass / (r * r)) • sdiv r_vec r

/-- The all-zero force table. -/
def zeroForces : String → Vec3 := fun _ => ((0 : ℝ), 0, 0)

/-- The per-body fields the integrators must never touch: name, kind,
mass, radius and color. -/
def identityFields (b : CelestialBody) : String × String × ℝ × ℝ × Vec3 :=
  (b.name, b.type, b.mass, b.radius, b.color)

/-- Lookup commutes with a per-entry rewrite of the bodies. -/
lemma dictGet_mapEntries (f : String → CelestialBody → CelestialBody)
    (d : BodyDict) (k : String) :
    dictGet (mapEntries f d) k = (dictGet d k).map (f k) := by
  induction d with
  | nil => rfl
  | cons kv tl ih =>
    by_cases h : kv.1 = k
    · subst h; simp [mapEntries, dictGet]
    · simpa [mapEntries, dictGet, h] using ih

/-- A body found by lookup is a body of the dict. -/
lemma mem_of_dictGet {d : BodyDict} {k : String} {b : CelestialBody}
    (h : dictGet d k = some b) : ∃ kv ∈ d, kv.2 = b := by
  induction d with
  | nil => simp [dictGet] at h
  | cons kv tl ih =>
    by_cases hk : kv.1 = k
    · refine ⟨kv, List.mem_cons_self kv tl, ?_⟩
      simpa [dictGet, hk] using h
    · obtain ⟨kv2, hmem, hb⟩ := ih (by simpa [dictGet, hk] using h)
      exact ⟨kv2, List.mem_cons_of_mem kv hmem, hb⟩

/-- A projection that every per-entry rewrite preserves is preserved by the
whole mapEntries pass (values paired with their keys). -/
lemma mapEntries_proj {α : Type} (g : CelestialBody → α)
    (f : String → CelestialBody → CelestialBody)
    (hf : ∀ k b, g (f k b) = g b) (d : BodyDict) :
    (mapEntries f d).map (fun kv => (kv.1, g kv.2))
      = d.map fun kv => (kv.1, g kv.2) := by
  induction d with
  | nil => rfl
  | cons kv tl ih =>
    simp only [mapEntries, List.map_cons] at ih ⊢
    rw [hf kv.1 kv.2, ih]

/-- A projection that every per-entry rewrite preserves is preserved by the
whole mapEntries pass (values alone). -/
lemma mapEntries_proj2 {α : Type} (g : CelestialBody → α)
    (f : String → CelestialBody → CelestialBody)
    (hf : ∀ k b, g (f k b) = g b) (d : BodyDict) :
    (mapEntries f d).map (fun kv => g kv.2) = d.map fun kv => g kv.2 := by
  induction d with
  | nil => rfl
  | cons kv tl ih =>
    simp only [mapEntries, List.map_cons] at ih ⊢
    rw [hf kv.1 kv.2, ih]

/-- Mass positivity carries over any mapEntries pass that keeps masses. -/
lemma mapEntries_mass_pos (f : String → CelestialBody → CelestialBody)
    (hf : ∀ k b, (f k b).mass = b.mass) {d : BodyDict}
    (hm : ∀ kv ∈ d, 0 < kv.2.mass) :
    ∀ kv ∈ mapEntries f d, 0 < kv.2.mass := by
  intro kv hkv
  obtain ⟨kv0, hkv0, rfl⟩ := List.mem_map.mp hkv
  simpa [hf] using hm kv0 hkv0

/-- Subtracting the zero vector is the identity. -/
lemma vec_sub_zero (v : Vec3) : v - (((0 : ℝ), (0 : ℝ), (0 : ℝ)) : Vec3) = v := by
  obtain ⟨a, b, c⟩ := v
  simp [Prod.mk_sub_mk]

/-- Componentwise division of the zero vector gives the zero vector. -/
lemma sdiv_zero_vec (t : ℝ) : sdiv ((0 : ℝ), (0 : ℝ), (0 : ℝ)) t = ((0 : ℝ), 0, 0) := by
  simp [sdiv]

/-- A vector minus its own scaled sdiv by a nonzero scalar vanishes. -/
lemma sub_smul_sdiv (S : Vec3) (t : ℝ) (h : t ≠ 0) :
    S - t • sdiv S t = (((0 : ℝ), (0 : ℝ), (0 : ℝ)) : Vec3) := by
  obtain ⟨a, b, c⟩ := S
  simp only [sdiv, Prod.smul_mk, smul_eq_mul, Prod.mk_sub_mk]
  rw [mul_div_cancel₀ _ h, mul_div_cancel₀ _ h, mul_div_cancel₀ _ h]
  simp

/-- Claim C4, counterexample: constructing a body with mass 0 and radius -1
does not raise; the body initializer is a total function with no error
path, and the invalid values are stored as given.  This refutes the claim
that such a construction raises InvalidBodyError (no such error exists in
the code). -/
theorem construction_accepts_invalid_body :
    (mkCelestialBody nameA kindStar 0 (-1) ((0 : ℝ), 0, 0) ((0 : ℝ), 0, 0)
      ((0 : ℝ), 0, 0)).mass = 0 ∧
    (mkCelestialBody nameA kindStar 0 (-1) ((0 : ℝ), 0, 0) ((0 : ℝ), 0, 0)
      ((0 : ℝ), 0, 0)).radius = -1 :=
  ⟨rfl, rfl⟩

/-- Claim C4, amended: construction performs no validation and never
raises; every argument, including a non-positive mass or radius, is stored
verbatim — never clamped. -/
theorem construction_stores_verbatim (n t : String) (m r : ℝ) (p v c : Vec3) :
    (mkCelestialBody n t m r p v c).name = n ∧
    (mkCelestialBody n t m r p v c).type = t ∧
    (mkCelestialBody n t m r p v c).mass = m ∧
    (mkCelestialBody n t m r p v c).radius = r ∧
    (mkCelestialBody n t m r p v c).position = p ∧
    (mkCelestialBody n t m r p v c).velocity = v ∧
    (mkCelestialBody n t m r p v c).color = c ∧
    (mkCelestialBody n t m r p v c).trail = [] :=
  ⟨rfl, rfl, rfl, rfl, rfl, rfl, rfl, rfl⟩

/-- Claim C2, code bug: merging two unit-mass bodies at (1,0,0) and
(3,0,0) puts the survivor at (5/2, 0, 0), not at the mass-weighted
centroid (2, 0, 0) of the pre-merge states.  The source updates self.mass
to the total mass before the position line reads it, so the position
formula weights body 1 by the merged mass instead of its pre-merge mass,
contradicting the adjacent comment (adjust position to the center of
mass) and the spec formula. -/
theorem merge_position_misses_centroid :
    (bodyMergeA.merge_with bodyMergeB).position = ((5 : ℝ) / 2, (0 : ℝ), (0 : ℝ)) ∧
    massWeightedCentroid bodyMergeA.mass bodyMergeA.position bodyMergeB.mass
      bodyMergeB.position = ((2 : ℝ), (0 : ℝ), (0 : ℝ)) ∧
    (((5 : ℝ) / 2, (0 : ℝ), (0 : ℝ)) : Vec3) ≠ ((2 : ℝ), (0 : ℝ), (0 : ℝ)) := by
  refine ⟨?_, ?_, ?_⟩
  · simp only [bodyMergeA, bodyMergeB, mkCelestialBody, CelestialBody.merge_with, sdiv,
      Prod.smul_mk, Prod.mk_add_mk, smul_eq_mul]
    norm_num
  · simp only [massWeightedCentroid, bodyMergeA, bodyMergeB, mkCelestialBody, sdiv,
      Prod.smul_mk, Prod.mk_add_mk, smul_eq_mul]
    norm_num
  · intro hcon
    have h1 := congrArg Prod.fst hcon
    norm_num at h1

/-- Claim C7: the merged body's velocity is the momentum-conserving
combination of the pre-merge masses and velocities, and its mass is the
sum of the pre-merge masses.  In the source the velocity line runs before
the mass is overwritten, so both use the pre-merge masses. -/
theorem merge_conserves_momentum (b1 b2 : CelestialBody)
    (_h1 : 0 < b1.mass) (_h2 : 0 < b2.mass)
    (_hc : b1.is_collision_with b2) :
    (b1.merge_with b2).velocity =
      sdiv (b1.mass • b1.velocity + b2.mass • b2.velocity) (b1.mass + b2.mass) ∧
    (b1.merge_with b2).mass = b1.mass + b2.mass :=
  ⟨rfl, rfl⟩

/-- The two coinciding unit bodies collide: their center distance is 0,
below the radius sum 2. -/
lemma coincide_collision : bodyOrigin1.is_collision_with bodyOrigin2 := by
  simp only [CelestialBody.is_collision_with, bodyOrigin1, bodyOrigin2, mkCelestialBody,
    norm3, Prod.mk_sub_mk]
  norm_num [Real.sqrt_zero]

/-- Witness for claim C7 at the two coinciding unit bodies. -/
theorem merge_conserves_momentum_witness :
    (bodyOrigin1.merge_with bodyOrigin2).velocity =
      sdiv (bodyOrigin1.mass • bodyOrigin1.velocity + bodyOrigin2.mass • bodyOrigin2.velocity)
        (bodyOrigin1.mass + bodyOrigin2.mass) ∧
    (bodyOrigin1.merge_with bodyOrigin2).mass = bodyOrigin1.mass + bodyOrigin2.mass :=
  merge_conserves_momentum bodyOrigin1 bodyOrigin2
    (by norm_num [bodyOrigin1, mkCelestialBody])
    (by norm_num [bodyOrigin2, mkCelestialBody])
    coincide_collision

/-- Trails are untouched by the RK4 integrator: its stage loops and its
final loop rewrite only position and velocity and never call the
trail-appending update. -/
lemma rk4_trail_eq (e : GravityEngine) (d : BodyDict) (dt : ℝ) :
    (rk4_integration e d dt).map (fun kv => kv.2.trail)
      = d.map fun kv => kv.2.trail := by
  simp only [rk4_integration, rk4Final]
  refine mapEntries_proj2 (fun b => b.trail) _ ?_ d
  intro k b
  rfl

/-- Claim C5, amended: one RK4 integration step appends nothing to any
body's trail — the trail after the step is the trail before it.  (Only
update_position appends to trails, and only euler_integration calls it.) -/
theorem rk4_integration_appends_no_trail (e : GravityEngine) (d : BodyDict) (dt : ℝ) :
    (rk4_integration e d dt).map (fun kv => kv.2.trail)
      = d.map fun kv => kv.2.trail :=
  rk4_trail_eq e d dt

/-- Claim C5, counterexample: on a one-body dict with an empty trail, one
RK4 step leaves the trail length at 0, not at the 1 the claim requires. -/
theorem rk4_trail_count_counterexample :
    ((rk4_integration mkGravityEngine dictSolo 1).map fun kv => kv.2.trail.length)
      = [0] ∧
    ¬ (((rk4_integration mkGravityEngine dictSolo 1).map fun kv => kv.2.trail.length)
        = dictSolo.map fun kv => kv.2.trail.length + 1) := by
  have h : (rk4_integration mkGravityEngine dictSolo 1).map (fun kv => kv.2.trail)
      = dictSolo.map fun kv => kv.2.trail := rk4_trail_eq _ _ _
  have h0 : (rk4_integration mkGravityEngine dictSolo 1).map
      (fun kv => kv.2.trail.length) = [0] := by
    have h2 := congrArg (List.map List.length) h
    simp only [List.map_map] at h2
    simpa [Function.comp, dictSolo, bodyOrigin1, mkCelestialBody] using h2
  refine ⟨h0, ?_⟩
  rw [h0]
  simp [dictSolo, bodyOrigin1, mkCelestialBody]

/-- Claim C10: both integration schemes leave every body's name, kind,
mass, radius and color unchanged (and the keys in place); only position,
velocity, acceleration and trail are written by the integration step. -/
theorem integration_preserves_identity_fields (e : GravityEngine) (d : BodyDict) (dt : ℝ) :
    ((euler_integration e d dt).map fun kv => (kv.1, identityFields kv.2))
        = (d.map fun kv => (kv.1, identityFields kv.2)) ∧
    ((rk4_integration e d dt).map fun kv => (kv.1, identityFields kv.2))
        = d.map fun kv => (kv.1, identityFields kv.2) := by
  constructor
  · simp only [euler_integration, update_accelerations]
    refine Eq.trans (mapEntries_proj identityFields _ ?_ _)
      (mapEntries_proj identityFields _ ?_ d)
    · intro k b
      rfl
    · intro k b
      unfold identityFields accelStep
      split <;> rfl
  · simp only [rk4_integration, rk4Final]
    refine mapEntries_proj identityFields _ ?_ d
    intro k b
    rfl

/-- Claim C8: the Euler step is semi-implicit (symplectic): each body's
velocity is updated first from the freshly computed acceleration, and the
position update then uses the already-updated velocity, never the old
one. -/
theorem euler_velocity_then_position (e : GravityEngine) (d : BodyDict) (dt : ℝ)
    (k : String) (b : CelestialBody) (hb : dictGet d k = some b) :
    ∃ res, dictGet (euler_integration e d dt) k = some res ∧
      res.acceleration =
        (accelStep (calculate_gravitational_forces e.G d) k b).acceleration ∧
      res.velocity = b.velocity + dt • res.acceleration ∧
      res.position = b.position + dt • res.velocity := by
  have hAv : (accelStep (calculate_gravitational_forces e.G d) k b).velocity
      = b.velocity := by
    unfold accelStep
    split <;> rfl
  have hAp : (accelStep (calculate_gravitational_forces e.G d) k b).position
      = b.position := by
    unfold accelStep
    split <;> rfl
  refine ⟨((accelStep (calculate_gravitational_forces e.G d) k b).update_velocity
      dt).update_position dt, ?_, rfl, ?_, ?_⟩
  · simp only [euler_integration, update_accelerations, dictGet_mapEntries, hb,
      Option.map_some']
  · simp only [CelestialBody.update_position, CelestialBody.update_velocity]
    rw [hAv]
  · simp only [CelestialBody.update_position, CelestialBody.update_velocity]
    rw [hAp]

/-- Witness for claim C8 on the one-body dict. -/
theorem euler_velocity_then_position_witness :
    ∃ res, dictGet (euler_integration mkGravityEngine dictSolo 1) keyA = some res ∧
      res.acceleration =
        (accelStep (calculate_gravitational_forces mkGravityEngine.G dictSolo)
          keyA bodyOrigin1).acceleration ∧
      res.velocity = bodyOrigin1.velocity + (1 : ℝ) • res.acceleration ∧
      res.position = bodyOrigin1.position + (1 : ℝ) • res.velocity :=
  euler_velocity_then_position mkGravityEngine dictSolo 1 keyA bodyOrigin1
    (by simp [dictGet, dictSolo])

/-- Non-degenerate pairs: the distance of the two demo bodies on the
x-axis evaluates to 1. -/
lemma force_pair_distance :
    norm3 (bodyMergeA.position - bodyOrigin1.position) = 1 := by
  simp only [bodyMergeA, bodyOrigin1, mkCelestialBody, norm3, Prod.mk_sub_mk]
  norm_num [Real.sqrt_one]

/-- Claim C3, amended: for a non-degenerate pair with distinct keys, the
pair update adds F * direction to body i's accumulator (the body earlier
in iteration order) and subtracts the same vector from body j's
accumulator, so the pair's net contribution to body i is the exact
negation of its contribution to body j. -/
theorem pair_force_equal_opposite (G : ℝ) (f : String → Vec3)
    (e1 e2 : String × CelestialBody) (hk : e1.1 ≠ e2.1)
    (hr : ¬ norm3 (e2.2.position - e1.2.position) = 0) :
    applyPair G f e1 e2 e1.1 = f e1.1 + pairForceVec G e1.2 e2.2 ∧
    applyPair G f e1 e2 e2.1 = f e2.1 - pairForceVec G e1.2 e2.2 ∧
    applyPair G f e1 e2 e1.1 - f e1.1
      = -(applyPair G f e1 e2 e2.1 - f e2.1) := by
  have hk2 : e2.1 ≠ e1.1 := Ne.symm hk
  have h1 : applyPair G f e1 e2 e1.1 = f e1.1 + pairForceVec G e1.2 e2.2 := by
    simp only [applyPair, pairForceVec, updF, if_neg hr, if_neg hk, if_pos rfl, if_true]
  have h2 : applyPair G f e1 e2 e2.1 = f e2.1 - pairForceVec G e1.2 e2.2 := by
    simp only [applyPair, pairForceVec, updF, if_neg hr, if_neg hk2, if_pos rfl, if_true]
  refine ⟨h1, h2, ?_⟩
  rw [h1, h2]
  abel

/-- Witness for the amended claim C3 at the concrete x-axis pair. -/
theorem pair_force_equal_opposite_witness :
    applyPair mkGravityEngine.G zeroForces (keyA, bodyOrigin1) (keyB, bodyMergeA) keyA
        = zeroForces keyA + pairForceVec mkGravityEngine.G bodyOrigin1 bodyMergeA ∧
    applyPair mkGravityEngine.G zeroForces (keyA, bodyOrigin1) (keyB, bodyMergeA) keyB
        = zeroForces keyB - pairForceVec mkGravityEngine.G bodyOrigin1 bodyMergeA ∧
    applyPair mkGravityEngine.G zeroForces (keyA, bodyOrigin1) (keyB, bodyMergeA) keyA
        - zeroForces keyA
      = -(applyPair mkGravityEngine.G zeroForces (keyA, bodyOrigin1) (keyB, bodyMergeA) keyB
        - zeroForces keyB) :=
  pair_force_equal_opposite mkGravityEngine.G zeroForces (keyA, bodyOrigin1)
    (keyB, bodyMergeA) (by simp [keyA, keyB])
    (by rw [force_pair_distance]
        norm_num)

/-- Claim C3, counterexample: with unit masses at the origin (key a, body
i) and at (1,0,0) (key b, body j), the computed force table holds
+G * direction on body i and -G * direction on body j — the signs are the
reverse of the claim's assignment, which would put -G * direction on body
i.  The third conjunct shows the two values really differ. -/
theorem forces_sign_counterexample :
    calculate_gravitational_forces mkGravityEngine.G dictForce keyA
        = ((66743 / 10 ^ 15 : ℝ), (0 : ℝ), (0 : ℝ)) ∧
    calculate_gravitational_forces mkGravityEngine.G dictForce keyB
        = (-(66743 / 10 ^ 15 : ℝ), (0 : ℝ), (0 : ℝ)) ∧
    (((66743 / 10 ^ 15 : ℝ), (0 : ℝ), (0 : ℝ)) : Vec3)
      ≠ (-(66743 / 10 ^ 15 : ℝ), (0 : ℝ), (0 : ℝ)) := by
  have hr := force_pair_distance
  have hab : ¬ ("a" : String) = "b" := by decide
  have hba : ¬ ("b" : String) = "a" := by decide
  refine ⟨?_, ?_, ?_⟩
  · simp only [calculate_gravitational_forces, dictForce, allPairs, List.map_cons,
      List.map_nil, List.nil_append, List.append_nil, List.foldl_cons, List.foldl_nil,
      applyPair, updF, hr]
    rw [if_neg (by norm_num : ¬ (1 : ℝ) = 0)]
    simp only [keyA, keyB, mkGravityEngine, bodyOrigin1, bodyMergeA, mkCelestialBody,
      sdiv, Prod.mk_sub_mk, Prod.smul_mk, Prod.mk_add_mk, smul_eq_mul]
    norm_num [updF, hab, hba]
  · simp only [calculate_gravitational_forces, dictForce, allPairs, List.map_cons,
      List.map_nil, List.nil_append, List.append_nil, List.foldl_cons, List.foldl_nil,
      applyPair, updF, hr]
    rw [if_neg (by norm_num : ¬ (1 : ℝ) = 0)]
    simp only [keyA, keyB, mkGravityEngine, bodyOrigin1, bodyMergeA, mkCelestialBody,
      sdiv, Prod.mk_sub_mk, Prod.smul_mk, Prod.mk_add_mk, smul_eq_mul]
    norm_num [updF, hab, hba]
  · intro hcon
    have h1 := congrArg Prod.fst hcon
    norm_num at h1

/-- Total mass is invariant under any mass-preserving per-entry pass. -/
lemma totalMass_mapEntries (f : String → CelestialBody → CelestialBody)
    (hf : ∀ k b, (f k b).mass = b.mass) (d : BodyDict) :
    totalMass (mapEntries f d) = totalMass d := by
  unfold totalMass
  rw [mapEntries_proj2 (fun b => b.mass) f hf d]

/-- Shifting every position subtracts totalMass times the shift from the
mass-weighted position sum. -/
lemma weighted_pos_shift (d : BodyDict) (c : Vec3) :
    ((shiftPositions d c).map fun kv => kv.2.mass • kv.2.position).sum
      = ((d.map fun kv => kv.2.mass • kv.2.position).sum) - totalMass d • c := by
  induction d with
  | nil => simp [shiftPositions, mapEntries, totalMass]
  | cons kv tl ih =>
    simp only [shiftPositions, mapEntries, totalMass, List.map_cons, List.sum_cons] at ih ⊢
    rw [smul_sub, ih, add_smul]
    abel

/-- Shifting every velocity subtracts totalMass times the shift from the
mass-weighted velocity sum. -/
lemma weighted_vel_shift (d : BodyDict) (c : Vec3) :
    ((shiftVelocities d c).map fun kv => kv.2.mass • kv.2.velocity).sum
      = ((d.map fun kv => kv.2.mass • kv.2.velocity).sum) - totalMass d • c := by
  induction d with
  | nil => simp [shiftVelocities, mapEntries, totalMass]
  | cons kv tl ih =>
    simp only [shiftVelocities, mapEntries, totalMass, List.map_cons, List.sum_cons] at ih ⊢
    rw [smul_sub, ih, add_smul]
    abel

/-- Total mass is invariant under a position shift. -/
lemma totalMass_shiftPositions (d : BodyDict) (c : Vec3) :
    totalMass (shiftPositions d c) = totalMass d := by
  unfold shiftPositions
  refine totalMass_mapEntries _ ?_ d
  intro k b
  rfl

/-- Total mass is invariant under a velocity shift. -/
lemma totalMass_shiftVelocities (d : BodyDict) (c : Vec3) :
    totalMass (shiftVelocities d c) = totalMass d := by
  unfold shiftVelocities
  refine totalMass_mapEntries _ ?_ d
  intro k b
  rfl

/-- A velocity shift keeps the mass-weighted position list. -/
lemma pos_terms_shiftVelocities (d : BodyDict) (c : Vec3) :
    ((shiftVelocities d c).map fun kv => kv.2.mass • kv.2.position)
      = d.map fun kv => kv.2.mass • kv.2.position := by
  unfold shiftVelocities
  refine mapEntries_proj2 (fun b => b.mass • b.position) _ ?_ d
  intro k b
  rfl

/-- A position shift keeps the mass-weighted velocity list. -/
lemma vel_terms_shiftPositions (d : BodyDict) (c : Vec3) :
    ((shiftPositions d c).map fun kv => kv.2.mass • kv.2.velocity)
      = d.map fun kv => kv.2.mass • kv.2.velocity := by
  unfold shiftPositions
  refine mapEntries_proj2 (fun b => b.mass • b.velocity) _ ?_ d
  intro k b
  rfl

/-- The center of mass ignores velocities, so a velocity shift keeps it. -/
lemma fCOM_shiftVelocities (d : BodyDict) (c : Vec3) :
    find_center_of_mass (shiftVelocities d c) = find_center_of_mass d := by
  unfold find_center_of_mass
  rw [totalMass_shiftVelocities, pos_terms_shiftVelocities]

/-- The center-of-mass velocity ignores positions, so a position shift
keeps it. -/
lemma fCOMV_shiftPositions (d : BodyDict) (c : Vec3) :
    find_center_of_mass_velocity (shiftPositions d c)
      = find_center_of_mass_velocity d := by
  unfold find_center_of_mass_velocity
  rw [totalMass_shiftPositions, vel_terms_shiftPositions]

/-- The recentered center of mass in closed form, for an arbitrary shift. -/
lemma fCOM_shiftPositions_general (d : BodyDict) (c : Vec3) (h : totalMass d ≠ 0) :
    find_center_of_mass (shiftPositions d c)
      = sdiv (((d.map fun kv => kv.2.mass • kv.2.position).sum) - totalMass d • c)
          (totalMass d) := by
  unfold find_center_of_mass
  rw [totalMass_shiftPositions, if_neg h, weighted_pos_shift]

/-- The recentered center-of-mass velocity in closed form. -/
lemma fCOMV_shiftVelocities_general (d : BodyDict) (c : Vec3) (h : totalMass d ≠ 0) :
    find_center_of_mass_velocity (shiftVelocities d c)
      = sdiv (((d.map fun kv => kv.2.mass • kv.2.velocity).sum) - totalMass d • c)
          (totalMass d) := by
  unfold find_center_of_mass_velocity
  rw [totalMass_shiftVelocities, if_neg h, weighted_vel_shift]

/-- After subtracting the center of mass from every position, the center
of mass is the zero vector (exact arithmetic, nonzero total mass). -/
lemma fCOM_recentered (d : BodyDict) (h : totalMass d ≠ 0) :
    find_center_of_mass (shiftPositions d (find_center_of_mass d))
      = ((0 : ℝ), 0, 0) := by
  rw [fCOM_shiftPositions_general d (find_center_of_mass d) h]
  have hS : ((d.map fun kv => kv.2.mass • kv.2.position).sum)
      - totalMass d • find_center_of_mass d = (((0 : ℝ), 0, 0) : Vec3) := by
    conv_lhs =>
      rw [show find_center_of_mass d
          = sdiv ((d.map fun kv => kv.2.mass • kv.2.position).sum) (totalMass d) from by
        unfold find_center_of_mass
        rw [if_neg h]]
    rw [sub_smul_sdiv _ _ h]
  rw [hS]
  exact sdiv_zero_vec _

/-- After subtracting the center-of-mass velocity from every velocity, the
center-of-mass velocity is the zero vector. -/
lemma fCOMV_recentered (d : BodyDict) (h : totalMass d ≠ 0) :
    find_center_of_mass_velocity
        (shiftVelocities d (find_center_of_mass_velocity d))
      = ((0 : ℝ), 0, 0) := by
  rw [fCOMV_shiftVelocities_general d (find_center_of_mass_velocity d) h]
  have hS : ((d.map fun kv => kv.2.mass • kv.2.velocity).sum)
      - totalMass d • find_center_of_mass_velocity d = (((0 : ℝ), 0, 0) : Vec3) := by
    conv_lhs =>
      rw [show find_center_of_mass_velocity d
          = sdiv ((d.map fun kv => kv.2.mass • kv.2.velocity).sum) (totalMass d) from by
        unfold find_center_of_mass_velocity
        rw [if_neg h]]
    rw [sub_smul_sdiv _ _ h]
  rw [hS]
  exact sdiv_zero_vec _

/-- Shifting every position by the zero vector changes nothing. -/
lemma shiftPositions_zero_vec (d : BodyDict) :
    shiftPositions d (((0 : ℝ), 0, 0) : Vec3) = d := by
  unfold shiftPositions mapEntries
  have h : ∀ kv : String × CelestialBody,
      (kv.1, { kv.2 with position := kv.2.position - (((0 : ℝ), 0, 0) : Vec3) }) = kv := by
    intro kv
    rw [vec_sub_zero]
  simp only [h]
  exact List.map_id d

/-- Shifting every velocity by the zero vector changes nothing. -/
lemma shiftVelocities_zero_vec (d : BodyDict) :
    shiftVelocities d (((0 : ℝ), 0, 0) : Vec3) = d := by
  unfold shiftVelocities mapEntries
  have h : ∀ kv : String × CelestialBody,
      (kv.1, { kv.2 with velocity := kv.2.velocity - (((0 : ℝ), 0, 0) : Vec3) }) = kv := by
    intro kv
    rw [vec_sub_zero]
  simp only [h]
  exact List.map_id d

/-- Unfolding of apply_correction into its two loops. -/
lemma apply_correction_eq (d : BodyDict) :
    apply_correction d
      = shiftVelocities (shiftPositions d (find_center_of_mass d))
          (find_center_of_mass_velocity
            (shiftPositions d (find_center_of_mass d))) := rfl

/-- The corrected dict still has the original total mass. -/
lemma totalMass_apply_correction (d : BodyDict) :
    totalMass (apply_correction d) = totalMass d := by
  rw [apply_correction_eq, totalMass_shiftVelocities, totalMass_shiftPositions]

/-- The corrected dict has its center of mass at the origin. -/
lemma fCOM_apply_correction (d : BodyDict) (h : totalMass d ≠ 0) :
    find_center_of_mass (apply_correction d) = ((0 : ℝ), 0, 0) := by
  rw [apply_correction_eq, fCOM_shiftVelocities]
  exact fCOM_recentered d h

/-- The corrected dict has zero center-of-mass velocity. -/
lemma fCOMV_apply_correction (d : BodyDict) (h : totalMass d ≠ 0) :
    find_center_of_mass_velocity (apply_correction d) = ((0 : ℝ), 0, 0) := by
  rw [apply_correction_eq]
  have h1 : totalMass (shiftPositions d (find_center_of_mass d)) ≠ 0 := by
    rw [totalMass_shiftPositions]
    exact h
  exact fCOMV_recentered _ h1

/-- Claim C9: the recentering correction is idempotent on any non-empty
collection of positive-mass bodies (after one application both recentering
queries return the zero vector, so the second application subtracts
nothing), and on the empty collection both queries return the zero vector
and the correction mutates nothing. -/
theorem apply_correction_idempotent (d : BodyDict) (hne : d ≠ [])
    (hm : ∀ kv ∈ d, 0 < kv.2.mass) :
    apply_correction (apply_correction d) = apply_correction d ∧
    find_center_of_mass ([] : BodyDict) = (((0 : ℝ), 0, 0) : Vec3) ∧
    find_center_of_mass_velocity ([] : BodyDict) = (((0 : ℝ), 0, 0) : Vec3) ∧
    apply_correction ([] : BodyDict) = ([] : BodyDict) := by
  have hT : totalMass d ≠ 0 := by
    have hpos : 0 < totalMass d := by
      unfold totalMass
      apply List.sum_pos
      · intro x hx
        obtain ⟨kv, hkv, rfl⟩ := List.mem_map.mp hx
        exact hm kv hkv
      · simpa using hne
    exact ne_of_gt hpos
  refine ⟨?_, by simp [find_center_of_mass, totalMass],
    by simp [find_center_of_mass_velocity, totalMass], rfl⟩
  have hTA : totalMass (apply_correction d) ≠ 0 := by
    rw [totalMass_apply_correction]
    exact hT
  rw [apply_correction_eq (apply_correction d)]
  rw [fCOM_apply_correction d hT, shiftPositions_zero_vec,
      fCOMV_apply_correction d hT, shiftVelocities_zero_vec]

/-- Witness for claim C9 on the two-body x-axis dict. -/
theorem apply_correction_idempotent_witness :
    apply_correction (apply_correction dictMerge) = apply_correction dictMerge ∧
    find_center_of_mass ([] : BodyDict) = (((0 : ℝ), 0, 0) : Vec3) ∧
    find_center_of_mass_velocity ([] : BodyDict) = (((0 : ℝ), 0, 0) : Vec3) ∧
    apply_correction ([] : BodyDict) = ([] : BodyDict) :=
  apply_correction_idempotent dictMerge (by simp [dictMerge])
    (by
      intro kv hkv
      simp only [dictMerge, List.mem_cons, List.not_mem_nil, or_false] at hkv
      rcases hkv with h | h <;> subst h <;>
        norm_num [bodyMergeA, bodyMergeB, mkCelestialBody])

/-- On an all-positive-mass dict the code's stage derivative equals the
spec derivative: the code's mass guard always takes its positive branch. -/
lemma rk4_step_eq_specDeriv (G : ℝ) (d : BodyDict)
    (hm : ∀ kv ∈ d, 0 < kv.2.mass) : rk4_step G d = specDeriv G d := by
  unfold rk4_step specDeriv
  refine Prod.ext rfl ?_
  funext k
  cases hd : dictGet d k with
  | none => simp [hd]
  | some b =>
    obtain ⟨kv, hkv, hb⟩ := mem_of_dictGet hd
    have hbm : 0 < b.mass := hb ▸ hm kv hkv
    simp [hd, hbm]

/-- The spec stage advance is the code's stage-restore loop. -/
lemma specAdvance_eq (init : BodyDict)
    (s : (String → Vec3) × (String → Vec3)) (h : ℝ) :
    specAdvance init s h = rk4Stage init s.1 s.2 h := rfl

/-- A stage restore keeps every body's mass, hence mass positivity. -/
lemma rk4Stage_mass_pos (d : BodyDict) (kp kv : String → Vec3) (h : ℝ)
    (hm : ∀ p ∈ d, 0 < p.2.mass) :
    ∀ p ∈ rk4Stage d kp kv h, 0 < p.2.mass := by
  unfold rk4Stage
  refine mapEntries_mass_pos _ ?_ hm
  intro k b
  rfl

/-- Claim C6: the RK4 implementation refines the spec: it snapshots the
initial state, restores every stage from that snapshot (stage 2 advances
the snapshot by 0.5*dt*k1, stage 3 by 0.5*dt*k2, stage 4 by dt*k3, never
accumulating stage perturbations), takes each stage's k_pos as that
stage's velocity and k_vel as the stage's force/mass acceleration, and
ends at snapshot + dt/6 * (k1 + 2*k2 + 2*k3 + k4) for position and
velocity alike; on positive-mass bodies this is exactly the spec-side
rk4SpecResult. -/
theorem rk4_follows_spec (e : GravityEngine) (d : BodyDict) (dt : ℝ)
    (hm : ∀ kv ∈ d, 0 < kv.2.mass) :
    rk4_integration e d dt = rk4SpecResult e d dt := by
  have h1 : rk4_step e.G d = specDeriv e.G d := rk4_step_eq_specDeriv e.G d hm
  have hm1 : ∀ p ∈ rk4Stage d (specDeriv e.G d).1 (specDeriv e.G d).2 (0.5 * dt),
      0 < p.2.mass := rk4Stage_mass_pos d _ _ _ hm
  have h2 : rk4_step e.G
        (rk4Stage d (specDeriv e.G d).1 (specDeriv e.G d).2 (0.5 * dt))
      = specDeriv e.G
        (rk4Stage d (specDeriv e.G d).1 (specDeriv e.G d).2 (0.5 * dt)) :=
    rk4_step_eq_specDeriv _ _ hm1
  have hm2 : ∀ p ∈ rk4Stage d
        (specDeriv e.G (rk4Stage d (specDeriv e.G d).1 (specDeriv e.G d).2 (0.5 * dt))).1
        (specDeriv e.G (rk4Stage d (specDeriv e.G d).1 (specDeriv e.G d).2 (0.5 * dt))).2
        (0.5 * dt), 0 < p.2.mass := rk4Stage_mass_pos d _ _ _ hm
  have h3 : rk4_step e.G (rk4Stage d
        (specDeriv e.G (rk4Stage d (specDeriv e.G d).1 (specDeriv e.G d).2 (0.5 * dt))).1
        (specDeriv e.G (rk4Stage d (specDeriv e.G d).1 (specDeriv e.G d).2 (0.5 * dt))).2
        (0.5 * dt))
      = specDeriv e.G (rk4Stage d
        (specDeriv e.G (rk4Stage d (specDeriv e.G d).1 (specDeriv e.G d).2 (0.5 * dt))).1
        (specDeriv e.G (rk4Stage d (specDeriv e.G d).1 (specDeriv e.G d).2 (0.5 * dt))).2
        (0.5 * dt)) :=
    rk4_step_eq_specDeriv _ _ hm2
  have hm3 : ∀ p ∈ rk4Stage d
        (specDeriv e.G (rk4Stage d
          (specDeriv e.G (rk4Stage d (specDeriv e.G d).1 (specDeriv e.G d).2 (0.5 * dt))).1
          (specDeriv e.G (rk4Stage d (specDeriv e.G d).1 (specDeriv e.G d).2 (0.5 * dt))).2
          (0.5 * dt))).1
        (specDeriv e.G (rk4Stage d
          (specDeriv e.G (rk4Stage d (specDeriv e.G d).1 (specDeriv e.G d).2 (0.5 * dt))).1
          (specDeriv e.G (rk4Stage d (specDeriv e.G d).1 (specDeriv e.G d).2 (0.5 * dt))).2
          (0.5 * dt))).2
        dt, 0 < p.2.mass := rk4Stage_mass_pos d _ _ _ hm
  have h4 : rk4_step e.G (rk4Stage d
        (specDeriv e.G (rk4Stage d
          (specDeriv e.G (rk4Stage d (specDeriv e.G d).1 (specDeriv e.G d).2 (0.5 * dt))).1
          (specDeriv e.G (rk4Stage d (specDeriv e.G d).1 (specDeriv e.G d).2 (0.5 * dt))).2
          (0.5 * dt))).1
        (specDeriv e.G (rk4Stage d
          (specDeriv e.G (rk4Stage d (specDeriv e.G d).1 (specDeriv e.G d).2 (0.5 * dt))).1
          (specDeriv e.G (rk4Stage d (specDeriv e.G d).1 (specDeriv e.G d).2 (0.5 * dt))).2
          (0.5 * dt))).2
        dt)
      = specDeriv e.G (rk4Stage d
        (specDeriv e.G (rk4Stage d
          (specDeriv e.G (rk4Stage d (specDeriv e.G d).1 (specDeriv e.G d).2 (0.5 * dt))).1
          (specDeriv e.G (rk4Stage d (specDeriv e.G d).1 (specDeriv e.G d).2 (0.5 * dt))).2
          (0.5 * dt))).1
        (specDeriv e.G (rk4Stage d
          (specDeriv e.G (rk4Stage d (specDeriv e.G d).1 (specDeriv e.G d).2 (0.5 * dt))).1
          (specDeriv e.G (rk4Stage d (specDeriv e.G d).1 (specDeriv e.G d).2 (0.5 * dt))).2
          (0.5 * dt))).2
        dt) :=
    rk4_step_eq_specDeriv _ _ hm3
  simp only [rk4_integration, rk4SpecResult, specAdvance_eq]
  rw [h1, h2, h3, h4]
  rfl

/-- Witness for claim C6 on the one-body dict. -/
theorem rk4_follows_spec_witness :
    rk4_integration mkGravityEngine dictSolo 1
      = rk4SpecResult mkGravityEngine dictSolo 1 :=
  rk4_follows_spec mkGravityEngine dictSolo 1 (by
    intro kv hkv
    simp only [dictSolo, List.mem_cons, List.not_mem_nil, or_false] at hkv
    subst hkv
    norm_num [bodyOrigin1, mkCelestialBody])

/-- Claim C1, code bug: on a valid two-body collection whose bodies
overlap, handle_collisions does not run to completion.  It merges the
pair and deletes the second key while the outer loop is iterating the
same dict, so the next advance of the outer iterator hits a dict whose
size changed and raises RuntimeError instead of returning the shrunk
collection. -/
theorem handle_collisions_raises_on_merge :
    handle_collisions dictCoincide = Except.error dictChangedMsg := by
  have hcol := coincide_collision
  have hab : ¬ ("a" : String) = "b" := by decide
  simp [handle_collisions, dictCoincide, handleCollisionsAux, innerScan, hcol,
    mergeDelete, keyA, keyB, hab, dictGet]

end
